import Mathlib

/-!
Shallow embedding of the bootstrap/recovery completion-notification subsystem
of the state-sync driver (state-sync/state-sync-v2/state-sync-driver):
`driver_client.rs` (DriverNotification, DriverClient::notify_once_completed,
ClientNotificationListener) and `driver_factory.rs`
(DriverFactory::create_and_spawn_driver, create_driver_client,
StateSyncRuntimes::block_until_completed).

Parts of the crate the embedded files depend on that are not in the sources
(`crate::error::Error`, the `MetadataStorageInterface` trait, and the
futures oneshot/mpsc channel primitives) are modelled from the spec, each
marked `Modelled from the spec:` in its doc comment.
-/

namespace StateSyncDriver

/-- Modelled from the spec: the error kinds of `crate::error::Error`
(the `error` module is not among the sources). Spec section 7 lists
`ChannelClosed`, `DeliveryFailure`, `MetadataReadFailure` and
`FatalStartupInvariant`. -/
inductive Error where
  | channelClosed
  | deliveryFailure (msg : String)
  | metadataReadFailure (msg : String)
  | fatalStartupInvariant (msg : String)
deriving DecidableEq, Repr

instance {ε α : Type} [DecidableEq ε] [DecidableEq α] : DecidableEq (Except ε α)
  | Except.error e, Except.error f =>
    if h : e = f then isTrue (by rw [h]) else isFalse (by simp [h])
  | Except.error _, Except.ok _ => isFalse (by simp)
  | Except.ok _, Except.error _ => isFalse (by simp)
  | Except.ok a, Except.ok b =>
    if h : a = b then isTrue (by rw [h]) else isFalse (by simp [h])

/-- `Result<(), Error>`: the value carried by a Completion Channel. -/
abbrev CompletionResult := Except Error Unit

/-- Modelled from the spec: the persisted record returned by the metadata
store (the `metadata_storage` module is not among the sources); the spec's
concrete scenario exhibits a `target_version` field. -/
structure PendingSyncRequest where
  target_version : Nat
deriving DecidableEq, Repr

/-- Modelled from the spec: a (fake) metadata store implementing
`MetadataStorageInterface`, i.e. the read-only query
`pending_sync_request() -> Result<Option<PendingSyncRequest>, Error>`. -/
structure MetadataStorage where
  pending_sync_request : Except Error (Option PendingSyncRequest)
deriving DecidableEq, Repr

/-- `DriverNotification` from `driver_client.rs`: each variant owns the
send half of a oneshot channel, identified here by its channel id. -/
inductive DriverNotification where
  | notifyOnceBootstrapped (callbackSender : Nat)
  | notifyOnceRecovered (callbackSender : Nat)
deriving DecidableEq, Repr

/-! ## Oneshot Completion Channel

Modelled from the spec (the channel comes from the external futures crate):
a single-use, single-value primitive. The send half accepts exactly one
`CompletionResult` and consumes itself; dropping it without sending closes
the channel. Move semantics of the consumed sender is rendered as a state
machine in which `send` and `drop` are only enabled while the channel is
still waiting. -/

/-- State of one Completion Channel. -/
inductive OneshotState where
  | waiting
  | sent (r : CompletionResult)
  | closed
deriving DecidableEq, Repr

/-- An action the holder of the send half can attempt. -/
inductive SettleAction where
  | send (r : CompletionResult)
  | dropSender
deriving DecidableEq, Repr

/-- Modelled from the spec: a settle action succeeds only while the send
half has not yet been consumed; afterwards no action is possible (`none`). -/
def oneshotApply : OneshotState → SettleAction → Option OneshotState
  | OneshotState.waiting, SettleAction.send r => some (OneshotState.sent r)
  | OneshotState.waiting, SettleAction.dropSender => some OneshotState.closed
  | OneshotState.sent _, _ => none
  | OneshotState.closed, _ => none

/-- Run a list of attempted settle actions, returning the final channel
state and the number of actions that succeeded. -/
def oneshotRun : OneshotState → List SettleAction → OneshotState × Nat
  | s, [] => (s, 0)
  | s, a :: rest =>
    match oneshotApply s a with
    | some s' =>
      let p := oneshotRun s' rest
      (p.1, p.2 + 1)
    | none => oneshotRun s rest

/-- Modelled from the spec: awaiting the receive half yields the delivered
value, the `ChannelClosed` failure if the sender was dropped, and stays
pending (`none`) while the channel is still waiting. -/
def oneshotRecv : OneshotState → Option CompletionResult
  | OneshotState.waiting => none
  | OneshotState.sent r => some r
  | OneshotState.closed => some (Except.error Error.channelClosed)

/-- Once a channel is settled (sent or closed), no further settle action
succeeds: the run is absorbed with zero additional successes. -/
theorem oneshotRun_absorb (acts : List SettleAction) (s : OneshotState)
    (h : s ≠ OneshotState.waiting) : oneshotRun s acts = (s, 0) := by
  induction acts with
  | nil => rfl
  | cons a rest ih =>
    have happ : oneshotApply s a = none := by
      cases s with
      | waiting => exact absurd rfl h
      | sent r => cases a <;> rfl
      | closed => cases a <;> rfl
    simp [oneshotRun, happ, ih]

/-- C1: For every enqueued Envelope, the embedded Completion Channel
delivers at most one `CompletionResult`: over any sequence of attempted
settle actions starting from a fresh channel, at most one succeeds, and if
the channel leaves the waiting state then exactly one action succeeded and
the receive half observes either the single sent value or the
channel-closed failure — never a second value. -/
theorem notify_once_completed_channel_at_most_once (acts : List SettleAction) :
    (oneshotRun OneshotState.waiting acts).2 ≤ 1 ∧
    ((oneshotRun OneshotState.waiting acts).1 ≠ OneshotState.waiting →
      (oneshotRun OneshotState.waiting acts).2 = 1 ∧
      ((∃ r, (oneshotRun OneshotState.waiting acts).1 = OneshotState.sent r ∧
          oneshotRecv (oneshotRun OneshotState.waiting acts).1 = some r) ∨
        ((oneshotRun OneshotState.waiting acts).1 = OneshotState.closed ∧
          oneshotRecv (oneshotRun OneshotState.waiting acts).1 =
            some (Except.error Error.channelClosed)))) := by
  cases acts with
  | nil =>
    constructor
    · simp [oneshotRun]
    · intro h
      exact absurd rfl h
  | cons a rest =>
    cases a with
    | send r =>
      have hrun : oneshotRun OneshotState.waiting (SettleAction.send r :: rest) =
          (OneshotState.sent r, 1) := by
        simp [oneshotRun, oneshotApply,
          oneshotRun_absorb rest (OneshotState.sent r) (by simp)]
      rw [hrun]
      refine ⟨le_refl 1, fun _ => ⟨rfl, Or.inl ⟨r, rfl, rfl⟩⟩⟩
    | dropSender =>
      have hrun : oneshotRun OneshotState.waiting (SettleAction.dropSender :: rest) =
          (OneshotState.closed, 1) := by
        simp [oneshotRun, oneshotApply,
          oneshotRun_absorb rest OneshotState.closed (by simp)]
      rw [hrun]
      refine ⟨le_refl 1, fun _ => ⟨rfl, Or.inr ⟨rfl, rfl⟩⟩⟩

/-- Witness for C1 at the concrete action list [send (Ok), send (Err)]:
the channel settles to the sent value, exactly one action succeeded, and
the receiver observes that single value. -/
theorem notify_once_completed_channel_at_most_once_witness :
    (oneshotRun OneshotState.waiting
        [SettleAction.send (Except.ok ()),
         SettleAction.send (Except.error Error.channelClosed)]).2 = 1 := by
  have h := notify_once_completed_channel_at_most_once
    [SettleAction.send (Except.ok ()),
     SettleAction.send (Except.error Error.channelClosed)]
  exact (h.2 (by decide)).1

/-! ## Notification queue and DriverClient -/

/-- Modelled from the spec: the state of the unbounded mpsc queue (the
channel comes from the external futures crate). `isOpen` records that the
consumer is still listening; `buffer` holds the enqueued, not yet consumed
notifications. Capacity is unbounded, so the buffer is an unrestricted
list. -/
structure QueueState where
  isOpen : Bool
  buffer : List DriverNotification
deriving DecidableEq, Repr

/-- `DriverClient` from `driver_client.rs`: a metadata store handle and
the send half of the notification queue (identified by the queue id). -/
structure DriverClient where
  metadata_storage : MetadataStorage
  notification_sender : Nat
deriving DecidableEq, Repr

/-- How the driver eventually treats this call's fresh oneshot sender:
either it delivers a `CompletionResult`, or the sender is dropped without
a value (the envelope was dropped). -/
inductive ChannelOutcome where
  | delivered (r : CompletionResult)
  | senderDropped
deriving DecidableEq, Repr

/-- The `if is_some then NotifyOnceRecovered else NotifyOnceBootstrapped`
choice inside `notify_once_completed`. -/
def chooseDriverNotification (pending : Option PendingSyncRequest)
    (callbackSender : Nat) : DriverNotification :=
  if pending.isSome then DriverNotification.notifyOnceRecovered callbackSender
  else DriverNotification.notifyOnceBootstrapped callbackSender

/-- What one `notify_once_completed` call produces: the caller-visible
result, the queue state after the call, the id of the fresh oneshot
channel this call created, the next fresh id, and the handle as it stands
after the call. -/
structure NotifyResult where
  result : Except Error Unit
  queue : QueueState
  callbackChannel : Nat
  nextChannelId : Nat
  client : DriverClient
deriving DecidableEq, Repr

/-- `DriverClient::notify_once_completed` from `driver_client.rs`.
Faithful to the source order: a fresh oneshot channel is created first
(`fresh` is consumed in every path); then the metadata store is queried,
a failure propagating immediately with no enqueue (the `?` operator);
then the notification is chosen from the query's answer; then it is sent
on the unbounded queue, which fails exactly when the consumer is gone
(spec section 4.2 step 4 calls this a delivery failure, surfaced without
awaiting); finally the callback receiver is awaited, yielding the
delivered value or the channel-closed failure (`outcome` stands for the
driver's eventual treatment of the sender). -/
def notify_once_completed (client : DriverClient) (q : QueueState)
    (fresh : Nat) (outcome : ChannelOutcome) : NotifyResult :=
  let callback_sender := fresh
  match client.metadata_storage.pending_sync_request with
  | Except.error e =>
    { result := Except.error e, queue := q, callbackChannel := callback_sender,
      nextChannelId := fresh + 1, client := client }
  | Except.ok pending =>
    let driver_notification := chooseDriverNotification pending callback_sender
    if q.isOpen then
      let q' : QueueState := ⟨true, q.buffer ++ [driver_notification]⟩
      match outcome with
      | ChannelOutcome.delivered r =>
        { result := r, queue := q', callbackChannel := callback_sender,
          nextChannelId := fresh + 1, client := client }
      | ChannelOutcome.senderDropped =>
        { result := Except.error Error.channelClosed, queue := q',
          callbackChannel := callback_sender, nextChannelId := fresh + 1,
          client := client }
    else
      { result := Except.error (Error.deliveryFailure "send error: channel closed"),
        queue := q, callbackChannel := callback_sender,
        nextChannelId := fresh + 1, client := client }

/-- C2: if the metadata store reports a pending sync request at call time
the enqueued notification is the recovery kind, and if it reports none the
enqueued notification is the bootstrap kind (the queue being open so the
enqueue lands). -/
theorem notify_once_completed_kind_choice (client : DriverClient)
    (q : QueueState) (fresh : Nat) (outcome : ChannelOutcome)
    (hopen : q.isOpen = true) :
    (∀ p, client.metadata_storage.pending_sync_request = Except.ok (some p) →
      (notify_once_completed client q fresh outcome).queue.buffer =
        q.buffer ++ [DriverNotification.notifyOnceRecovered fresh]) ∧
    (client.metadata_storage.pending_sync_request = Except.ok none →
      (notify_once_completed client q fresh outcome).queue.buffer =
        q.buffer ++ [DriverNotification.notifyOnceBootstrapped fresh]) := by
  constructor
  · intro p hp
    cases outcome <;>
      simp [notify_once_completed, hp, hopen, chooseDriverNotification]
  · intro hp
    cases outcome <;>
      simp [notify_once_completed, hp, hopen, chooseDriverNotification]

/-- Witness for C2: a fake store reporting a pending request with target
version 100 yields a recovery notification on the queue. -/
theorem notify_once_completed_kind_choice_witness :
    (notify_once_completed ⟨⟨Except.ok (some ⟨100⟩)⟩, 0⟩ ⟨true, []⟩ 0
        ChannelOutcome.senderDropped).queue.buffer =
      [DriverNotification.notifyOnceRecovered 0] :=
  (notify_once_completed_kind_choice ⟨⟨Except.ok (some ⟨100⟩)⟩, 0⟩ ⟨true, []⟩ 0
    ChannelOutcome.senderDropped rfl).1 ⟨100⟩ rfl

/-- C3: once the call reaches the awaiting step (metadata query answered,
queue open), delivery of a value on the completion channel surfaces that
exact value — success yields Ok, an error value is observed verbatim —
and dropping the sender without a value surfaces the channel-closed
error. -/
theorem notify_once_completed_await_result (client : DriverClient)
    (q : QueueState) (fresh : Nat) (pending : Option PendingSyncRequest)
    (hq : client.metadata_storage.pending_sync_request = Except.ok pending)
    (hopen : q.isOpen = true) :
    (∀ r, (notify_once_completed client q fresh
        (ChannelOutcome.delivered r)).result = r) ∧
    (notify_once_completed client q fresh
        ChannelOutcome.senderDropped).result =
      Except.error Error.channelClosed := by
  constructor
  · intro r
    simp [notify_once_completed, hq, hopen]
  · simp [notify_once_completed, hq, hopen]

/-- Witness for C3: the driver resolves the dequeued envelope with the
delivery failure "chain fork"; the caller observes exactly that error. -/
theorem notify_once_completed_await_result_witness :
    (notify_once_completed ⟨⟨Except.ok (some ⟨100⟩)⟩, 0⟩ ⟨true, []⟩ 0
        (ChannelOutcome.delivered
          (Except.error (Error.deliveryFailure "chain fork")))).result =
      Except.error (Error.deliveryFailure "chain fork") :=
  (notify_once_completed_await_result ⟨⟨Except.ok (some ⟨100⟩)⟩, 0⟩ ⟨true, []⟩ 0
    (some ⟨100⟩) rfl rfl).1 (Except.error (Error.deliveryFailure "chain fork"))

/-- C4: when the metadata query itself fails, the call returns that exact
error immediately and the queue is unchanged — no envelope was enqueued. -/
theorem notify_once_completed_metadata_failure (client : DriverClient)
    (q : QueueState) (fresh : Nat) (outcome : ChannelOutcome) (e : Error)
    (hq : client.metadata_storage.pending_sync_request = Except.error e) :
    (notify_once_completed client q fresh outcome).result = Except.error e ∧
    (notify_once_completed client q fresh outcome).queue = q := by
  constructor <;> simp [notify_once_completed, hq]

/-- Witness for C4: a store whose query fails with a metadata-read
failure; the call returns it and the empty queue stays empty. -/
theorem notify_once_completed_metadata_failure_witness :
    (notify_once_completed
        ⟨⟨Except.error (Error.metadataReadFailure "disk")⟩, 0⟩ ⟨true, []⟩ 0
        ChannelOutcome.senderDropped).result =
      Except.error (Error.metadataReadFailure "disk") :=
  (notify_once_completed_metadata_failure
    ⟨⟨Except.error (Error.metadataReadFailure "disk")⟩, 0⟩ ⟨true, []⟩ 0
    ChannelOutcome.senderDropped (Error.metadataReadFailure "disk") rfl).1

/-- C5: with the metadata query answered, the enqueue succeeds for every
buffer content whenever the consumer is listening (unbounded capacity —
producers never fail on capacity), and fails exactly when the consumer has
permanently stopped listening; in that case the failure is returned
immediately, the call's outcome not depending on the completion channel at
all (it is never awaited) and the queue left unchanged. -/
theorem notify_once_completed_enqueue (client : DriverClient)
    (q : QueueState) (fresh : Nat) (outcome : ChannelOutcome)
    (pending : Option PendingSyncRequest)
    (hq : client.metadata_storage.pending_sync_request = Except.ok pending) :
    (q.isOpen = true →
      (notify_once_completed client q fresh outcome).queue.buffer =
        q.buffer ++ [chooseDriverNotification pending fresh]) ∧
    (q.isOpen = false →
      (notify_once_completed client q fresh outcome).result =
        Except.error (Error.deliveryFailure "send error: channel closed") ∧
      (∀ outcome', notify_once_completed client q fresh outcome =
        notify_once_completed client q fresh outcome') ∧
      (notify_once_completed client q fresh outcome).queue = q) := by
  constructor
  · intro hopen
    cases outcome <;> simp [notify_once_completed, hq, hopen]
  · intro hclosed
    refine ⟨by simp [notify_once_completed, hq, hclosed], ?_, ?_⟩
    · intro outcome'
      cases outcome <;> cases outcome' <;>
        simp [notify_once_completed, hq, hclosed]
    · simp [notify_once_completed, hq, hclosed]

/-- Witness for C5: with a closed queue the call fails immediately no
matter what would have happened on the completion channel. -/
theorem notify_once_completed_enqueue_witness :
    (notify_once_completed ⟨⟨Except.ok none⟩, 0⟩ ⟨false, []⟩ 0
        ChannelOutcome.senderDropped).result =
      Except.error (Error.deliveryFailure "send error: channel closed") :=
  ((notify_once_completed_enqueue ⟨⟨Except.ok none⟩, 0⟩ ⟨false, []⟩ 0
    ChannelOutcome.senderDropped none rfl).2 rfl).1

/-! ## ClientNotificationListener -/

/-- The result of one poll of a stream. -/
inductive PollResult (α : Type) where
  | ready (a : α)
  | pending
deriving DecidableEq, Repr

/-- Modelled from the spec: the receive half of the unbounded mpsc queue
(from the external futures crate). `closed` means every send half has been
dropped; `buffer` is what remains enqueued. -/
structure ReceiverState where
  closed : Bool
  buffer : List DriverNotification
deriving DecidableEq, Repr

/-- Modelled from the spec: the underlying receiver terminates once the
queue is permanently closed and no buffered items remain. -/
def mpscIsTerminated (r : ReceiverState) : Bool :=
  r.closed && r.buffer.isEmpty

/-- Modelled from the spec: polling the underlying receiver yields the
next buffered item, ends the sequence (`ready none`) once the queue is
closed and drained, and stays pending while senders are alive with
nothing buffered. -/
def mpscPollNext (r : ReceiverState) :
    PollResult (Option DriverNotification) × ReceiverState :=
  match r.buffer with
  | n :: rest => (PollResult.ready (some n), ⟨r.closed, rest⟩)
  | [] =>
    if r.closed then (PollResult.ready none, r)
    else (PollResult.pending, r)

/-- `ClientNotificationListener` from `driver_client.rs`: it wraps the
receive half and nothing else. -/
structure ClientNotificationListener where
  client_notifications : ReceiverState
deriving DecidableEq, Repr

/-- The listener's `Stream::poll_next`: it delegates to the wrapped
receiver (`Pin::new(&mut self.client_notifications).poll_next(cx)`). -/
def listenerPollNext (l : ClientNotificationListener) :
    PollResult (Option DriverNotification) × ClientNotificationListener :=
  ((mpscPollNext l.client_notifications).1,
    ⟨(mpscPollNext l.client_notifications).2⟩)

/-- The listener's `FusedStream::is_terminated`: it delegates to the
wrapped receiver. -/
def listenerIsTerminated (l : ClientNotificationListener) : Bool :=
  mpscIsTerminated l.client_notifications

/-- C6: the listener's termination predicate is true exactly when the
queue is permanently closed and no buffered envelopes remain; once
terminated, polling ends the sequence (`ready none`) with the listener
unchanged, so no further item is ever yielded; and both operations are
pure delegation to the underlying receiver. -/
theorem client_notification_listener_terminates
    (l : ClientNotificationListener) :
    (listenerIsTerminated l = true ↔
      l.client_notifications.closed = true ∧
        l.client_notifications.buffer = []) ∧
    (listenerIsTerminated l = true →
      listenerPollNext l = (PollResult.ready none, l)) ∧
    listenerIsTerminated l = mpscIsTerminated l.client_notifications ∧
    listenerPollNext l = ((mpscPollNext l.client_notifications).1,
      ⟨(mpscPollNext l.client_notifications).2⟩) := by
  obtain ⟨⟨closed, buffer⟩⟩ := l
  refine ⟨?_, ?_, rfl, rfl⟩
  · simp [listenerIsTerminated, mpscIsTerminated, List.isEmpty_iff]
  · intro h
    have hc : closed = true ∧ buffer = [] := by
      simpa [listenerIsTerminated, mpscIsTerminated, List.isEmpty_iff] using h
    simp [listenerPollNext, mpscPollNext, hc.1, hc.2]

/-- Witness for C6: a closed, drained queue — the listener is terminated
and polling returns the end of the sequence without changing it. -/
theorem client_notification_listener_terminates_witness :
    listenerPollNext ⟨⟨true, []⟩⟩ =
      (PollResult.ready none, ⟨⟨true, []⟩⟩) :=
  (client_notification_listener_terminates ⟨⟨true, []⟩⟩).2.1 rfl

/-! ## DriverFactory and Runtime Supervisor -/

/-- `DriverFactory` from `driver_factory.rs`: the retained queue send
half, the metadata store, and whether a dedicated driver runtime is owned
(`_driver_runtime`). -/
structure DriverFactory where
  client_notification_sender : Nat
  metadata_storage : MetadataStorage
  driver_runtime_owned : Bool
deriving DecidableEq, Repr

/-- The observable shape of one `create_and_spawn_driver` run: whether the
construction panicked (and with what message), whether the notification
queue was created, and whether a driver task was spawned. -/
structure FactoryTrace where
  aborted : Option String
  queueCreated : Bool
  driverSpawned : Bool
deriving DecidableEq, Repr

/-- The initial-configuration step of `create_and_spawn_driver`: match on
`fetch_latest_state_checkpoint_version()`; on Ok, call
`notify_initial_configs(synced_version)` and panic on its failure; on Err,
panic. Both panics happen before `mpsc::unbounded()` creates the queue and
before any task is spawned, which the trace records. -/
def create_and_spawn_driver (fetchVersionResult : Except String Nat)
    (notifyInitialConfigs : Nat → Except String Unit) : FactoryTrace :=
  match fetchVersionResult with
  | Except.ok synced_version =>
    match notifyInitialConfigs synced_version with
    | Except.ok _ =>
      { aborted := none, queueCreated := true, driverSpawned := true }
    | Except.error e =>
      { aborted :=
          some ("Failed to notify subscribers of initial on-chain configs: " ++ e),
        queueCreated := false, driverSpawned := false }
  | Except.error e =>
    { aborted := some ("Failed to fetch the initial synced version: " ++ e),
      queueCreated := false, driverSpawned := false }

/-- C7: if reading the last synced version fails, or the one-time
initial-configuration broadcast fails, construction aborts before the
notification queue exists and before any driver task is spawned — so no
listener can ever observe an envelope after such a failure. -/
theorem create_and_spawn_driver_aborts_before_queue
    (fetchVersionResult : Except String Nat)
    (notifyInitialConfigs : Nat → Except String Unit) :
    (∀ e, fetchVersionResult = Except.error e →
      (create_and_spawn_driver fetchVersionResult notifyInitialConfigs).aborted =
          some ("Failed to fetch the initial synced version: " ++ e) ∧
      (create_and_spawn_driver fetchVersionResult
          notifyInitialConfigs).queueCreated = false ∧
      (create_and_spawn_driver fetchVersionResult
          notifyInitialConfigs).driverSpawned = false) ∧
    (∀ v e, fetchVersionResult = Except.ok v →
      notifyInitialConfigs v = Except.error e →
      (create_and_spawn_driver fetchVersionResult notifyInitialConfigs).aborted =
          some ("Failed to notify subscribers of initial on-chain configs: " ++ e) ∧
      (create_and_spawn_driver fetchVersionResult
          notifyInitialConfigs).queueCreated = false ∧
      (create_and_spawn_driver fetchVersionResult
          notifyInitialConfigs).driverSpawned = false) := by
  constructor
  · intro e he
    simp [create_and_spawn_driver, he]
  · intro v e hv hn
    simp [create_and_spawn_driver, hv, hn]

/-- Witness for C7: a metadata store whose synced-version read fails; the
factory aborts with no queue and no spawned driver. -/
theorem create_and_spawn_driver_aborts_before_queue_witness :
    (create_and_spawn_driver (Except.error "storage down")
        (fun _ => Except.ok ())).queueCreated = false :=
  ((create_and_spawn_driver_aborts_before_queue (Except.error "storage down")
    (fun _ => Except.ok ())).1 "storage down" rfl).2.1

/-- `DriverFactory::create_driver_client`: a new client from a clone of
the metadata store and a clone of the queue send half. -/
def create_driver_client (f : DriverFactory) : DriverClient :=
  { metadata_storage := f.metadata_storage,
    notification_sender := f.client_notification_sender }

/-- How `StateSyncRuntimes::block_until_completed` returns: normally, or
by panicking (`expect`). -/
inductive BlockOutcome where
  | returned
  | panicked (msg : String)
deriving DecidableEq, Repr

/-- `StateSyncRuntimes::block_until_completed` from `driver_factory.rs`:
mint a driver client, drive `notify_once_completed` to completion
(`block_on`, modelled from the spec as yielding the async call's settled
result), and `expect` the result — returning only on Ok and panicking on
any error. -/
def block_until_completed (f : DriverFactory) (q : QueueState)
    (fresh : Nat) (outcome : ChannelOutcome) : BlockOutcome :=
  let state_sync_client := create_driver_client f
  match (notify_once_completed state_sync_client q fresh outcome).result with
  | Except.ok _ => BlockOutcome.returned
  | Except.error _ => BlockOutcome.panicked "State sync v2 initialization failure"

/-- C8: the supervisor's blocking entry point returns normally exactly
when the driven wait resolves with success; on every failure of that wait
it does not return normally but panics with the node-initialization
failure message — no partial-success outcome exists. -/
theorem block_until_completed_all_or_nothing (f : DriverFactory)
    (q : QueueState) (fresh : Nat) (outcome : ChannelOutcome) :
    (block_until_completed f q fresh outcome = BlockOutcome.returned ↔
      (notify_once_completed (create_driver_client f) q fresh outcome).result =
        Except.ok ()) ∧
    (∀ e, (notify_once_completed (create_driver_client f) q fresh
        outcome).result = Except.error e →
      block_until_completed f q fresh outcome =
        BlockOutcome.panicked "State sync v2 initialization failure") := by
  constructor
  · cases hres : (notify_once_completed (create_driver_client f) q fresh
        outcome).result with
    | ok u =>
      cases u
      simp [block_until_completed, hres]
    | error e =>
      simp [block_until_completed, hres]
  · intro e hres
    simp [block_until_completed, hres]

/-- Witness for C8: the driver resolves the envelope with an error; the
supervisor panics rather than returning. -/
theorem block_until_completed_all_or_nothing_witness :
    block_until_completed ⟨0, ⟨Except.ok none⟩, true⟩ ⟨true, []⟩ 0
        (ChannelOutcome.delivered (Except.error Error.channelClosed)) =
      BlockOutcome.panicked "State sync v2 initialization failure" :=
  (block_until_completed_all_or_nothing ⟨0, ⟨Except.ok none⟩, true⟩ ⟨true, []⟩ 0
    (ChannelOutcome.delivered (Except.error Error.channelClosed))).2
    Error.channelClosed rfl

/-! ## Statelessness and independence of calls -/

/-- Two sequential `notify_once_completed` calls on the same handle,
threading the queue and the fresh-channel supply from the first call into
the second; each call's completion channel is settled by its own
outcome. -/
def notify_twice (client : DriverClient) (q : QueueState) (fresh : Nat)
    (o1 o2 : ChannelOutcome) : NotifyResult × NotifyResult :=
  let r1 := notify_once_completed client q fresh o1
  let r2 := notify_once_completed r1.client r1.queue r1.nextChannelId o2
  (r1, r2)

/-- C9: a `notify_once_completed` call leaves the handle unchanged and
uses a fresh completion channel (the channel created is `fresh`, the next
call's is `fresh + 1`); across two calls the channels are distinct, the
first call's result does not depend on how the second call's channel is
settled, and the second call's result does not depend on how the first
call's channel is settled — the completion signals are pairwise
independent. -/
theorem notify_once_completed_stateless (client : DriverClient)
    (q : QueueState) (fresh : Nat) (o1 o2 : ChannelOutcome) :
    (notify_once_completed client q fresh o1).client = client ∧
    (notify_once_completed client q fresh o1).callbackChannel = fresh ∧
    (notify_once_completed client q fresh o1).nextChannelId = fresh + 1 ∧
    (notify_twice client q fresh o1 o2).1.callbackChannel ≠
      (notify_twice client q fresh o1 o2).2.callbackChannel ∧
    (∀ o2', (notify_twice client q fresh o1 o2).1.result =
      (notify_twice client q fresh o1 o2').1.result) ∧
    (∀ o1', (notify_twice client q fresh o1 o2).2.result =
      (notify_twice client q fresh o1' o2).2.result) := by
  have hgen : ∀ (c : DriverClient) (qq : QueueState) (n : Nat)
      (o : ChannelOutcome),
      (notify_once_completed c qq n o).client = c ∧
      (notify_once_completed c qq n o).callbackChannel = n ∧
      (notify_once_completed c qq n o).nextChannelId = n + 1 := by
    intro c qq n o
    cases hq : c.metadata_storage.pending_sync_request with
    | error e => simp [notify_once_completed, hq]
    | ok pending =>
      cases hopen : qq.isOpen <;> cases o <;>
        simp [notify_once_completed, hq, hopen]
  have hstate : ∀ o : ChannelOutcome,
      (notify_once_completed client q fresh o).client = client ∧
      (notify_once_completed client q fresh o).callbackChannel = fresh ∧
      (notify_once_completed client q fresh o).nextChannelId = fresh + 1 :=
    fun o => hgen client q fresh o
  have hqueue : ∀ o o' : ChannelOutcome,
      (notify_once_completed client q fresh o).queue =
        (notify_once_completed client q fresh o').queue := by
    intro o o'
    cases hq : client.metadata_storage.pending_sync_request with
    | error e => simp [notify_once_completed, hq]
    | ok pending =>
      cases hopen : q.isOpen <;> cases o <;> cases o' <;>
        simp [notify_once_completed, hq, hopen]
  refine ⟨(hstate o1).1, (hstate o1).2.1, (hstate o1).2.2, ?_, ?_, ?_⟩
  · have h1 : (notify_twice client q fresh o1 o2).1.callbackChannel = fresh :=
      (hstate o1).2.1
    have h2 : (notify_twice client q fresh o1 o2).2.callbackChannel =
        fresh + 1 := by
      show (notify_once_completed (notify_once_completed client q fresh o1).client
        (notify_once_completed client q fresh o1).queue
        (notify_once_completed client q fresh o1).nextChannelId o2).callbackChannel =
        fresh + 1
      rw [(hgen _ _ _ o2).2.1, (hstate o1).2.2]
    rw [h1, h2]
    exact Nat.ne_of_lt (Nat.lt_succ_self fresh)
  · intro o2'
    rfl
  · intro o1'
    show (notify_once_completed (notify_once_completed client q fresh o1).client
        (notify_once_completed client q fresh o1).queue
        (notify_once_completed client q fresh o1).nextChannelId o2).result =
      (notify_once_completed (notify_once_completed client q fresh o1').client
        (notify_once_completed client q fresh o1').queue
        (notify_once_completed client q fresh o1').nextChannelId o2).result
    rw [(hstate o1).1, (hstate o1').1, (hstate o1).2.2, (hstate o1').2.2,
      hqueue o1 o1']

/-- Witness for C9 at concrete inputs: the call leaves the handle
exactly as it was. -/
theorem notify_once_completed_stateless_witness :
    (notify_once_completed ⟨⟨Except.ok none⟩, 0⟩ ⟨true, []⟩ 5
        ChannelOutcome.senderDropped).client = ⟨⟨Except.ok none⟩, 0⟩ :=
  (notify_once_completed_stateless ⟨⟨Except.ok none⟩, 0⟩ ⟨true, []⟩ 5
    ChannelOutcome.senderDropped ChannelOutcome.senderDropped).1

/-! ## Trait surface of DriverClient -/

/-- The traits appearing in impl blocks of `driver_client.rs`. -/
inductive RustTrait where
  | clone
  | stream
  | fusedStream
deriving DecidableEq, Repr

/-- The traits `driver_client.rs` implements for `DriverClient`: none —
the file contains only the inherent impl block (`new`,
`notify_once_completed`) and no `derive(Clone)` or `impl Clone`. -/
def driverClientTraitImpls : List RustTrait := []

/-- The traits `driver_client.rs` implements for
`ClientNotificationListener`: `Stream` and `FusedStream`. -/
def clientNotificationListenerTraitImpls : List RustTrait :=
  [RustTrait.stream, RustTrait.fusedStream]

/-- C10 counterexample: `DriverClient` is not clonable by the holder of a
handle — the source provides no `Clone` implementation for it, so the only
way to duplicate a handle is the factory's `create_driver_client`. -/
theorem driver_client_not_clonable :
    ¬ (RustTrait.clone ∈ driverClientTraitImpls) := by
  decide

/-- C10 (amended): `DriverClient` itself implements no `Clone`; handles
are duplicated only by `DriverFactory::create_driver_client`, and every
handle so minted holds the factory's own queue send half and a clone of
the same metadata store, hence observes completion through the same queue
and store as every other handle from that factory. -/
theorem create_driver_client_shares_queue_and_store (f : DriverFactory) :
    RustTrait.clone ∉ driverClientTraitImpls ∧
    (create_driver_client f).notification_sender =
      f.client_notification_sender ∧
    (create_driver_client f).metadata_storage = f.metadata_storage := by
  exact ⟨by decide, rfl, rfl⟩

/-- Witness for C10 (amended) at a concrete factory: the minted handle
carries the factory's queue send half. -/
theorem create_driver_client_shares_queue_and_store_witness :
    (create_driver_client ⟨7, ⟨Except.ok none⟩, false⟩).notification_sender = 7 :=
  (create_driver_client_shares_queue_and_store ⟨7, ⟨Except.ok none⟩, false⟩).2.1

end StateSyncDriver
